import Mathlib

/-!
Verification of the Jira-to-Todoist reconciliation logic of `src/main.py`.

The pure core of the script — building the key-to-task map from existing
Todoist tasks, classifying each Jira ticket into an update or an add, and
classifying each mapped task into a complete or a delete — is embedded as
executable Lean definitions below, translated line by line from
`sync_to_todoist` (lines 83-170), `get_green_resolution_statuses`
(lines 30-45), `get_open_jira_tickets` (lines 47-81) and `run_service`
(lines 210-223).
-/

/-- A Jira ticket as normalized by `get_open_jira_tickets` in `src/main.py`
(lines 71-81): key, summary, optional due date, optional priority name,
optional status name, optional issue type name. -/
structure Ticket where
  key : String
  summary : String
  due_date : Option String
  priority : Option String
  status : Option String
  issuetype : Option String
deriving DecidableEq, Repr

/-- A Todoist task as consumed by `sync_to_todoist`: an opaque
service-assigned id plus the fields the script reads or writes. -/
structure TodoTask where
  id : String
  content : String
  due_date : Option String
  priority : Nat
  description : String
deriving DecidableEq, Repr

/-- Characters of a list before the first `':'`; the whole list when no
`':'` occurs.  This is Python `content.split(":")[0]` from line 104 of
`src/main.py`, on the character level. -/
def beforeColon : List Char → List Char
  | [] => []
  | c :: cs => if c = ':' then [] else c :: beforeColon cs

/-- The key under which a task is stored in `existing_task_map`
(line 104 of `src/main.py`): the raw substring of its content before the
first `':'`, with no trimming and no validation. -/
def taskKey (content : String) : String := String.mk (beforeColon content.data)

/-- One step of building a Python dict: overwrite the value at an existing
key, otherwise append the binding at the end (Python dicts keep the
insertion order of the first occurrence of a key and overwrite its value). -/
def dictInsert (m : List (String × TodoTask)) (k : String) (v : TodoTask) : List (String × TodoTask) :=
  if m.any (fun p => p.1 == k) then
    m.map (fun p => if p.1 == k then (k, v) else p)
  else
    m ++ [(k, v)]

/-- Lookup in the association list representing a Python dict. -/
def dictLookup (m : List (String × TodoTask)) (k : String) : Option TodoTask :=
  (m.find? (fun p => p.1 == k)).map (fun p => p.2)

/-- The dict comprehension of line 104 of `src/main.py`:
`{task.content.split(":")[0]: task for task in existing_tasks}` — a later
task with the same parsed key overwrites an earlier one. -/
def buildTaskMap (existing_tasks : List TodoTask) : List (String × TodoTask) :=
  existing_tasks.foldl (fun m t => dictInsert m (taskKey t.content) t) []

/-- The priority table of lines 136-143 of `src/main.py`, with the
`.get(..., 4)` default folded in. -/
def priority_mapping (name : String) : Nat :=
  if name = "Blocker" then 1
  else if name = "Critical" then 1
  else if name = "Major" then 2
  else if name = "Minor" then 3
  else if name = "Trivial" then 4
  else 4

/-- Lines 131-143 of `src/main.py`: the default priority is 4; when the
ticket priority is truthy (present and non-empty) the table is consulted. -/
def ticket_priority (tk : Ticket) : Nat :=
  match tk.priority with
  | none => 4
  | some p => if p = "" then 4 else priority_mapping p

/-- Line 129 of `src/main.py`: `f"{ticket['key']}: {ticket['summary']}"`. -/
def task_content (tk : Ticket) : String := tk.key ++ ": " ++ tk.summary

/-- Line 132 of `src/main.py`:
`f"{JIRA_SERVER_URL}/browse/{ticket['key']}"` — the Jira link only;
this variant fetches no ticket description and appends nothing to it. -/
def task_description (serverUrl : String) (tk : Ticket) : String :=
  serverUrl ++ "/browse/" ++ tk.key

/-- Line 122 of `src/main.py`:
`ticket["status"] in {"Blocked", "Cancelled"}` (false when the status is
absent). -/
def isBlockedOrCancelled (tk : Ticket) : Bool :=
  tk.status == some "Blocked" || tk.status == some "Cancelled"

/-- The update payload built on lines 148-154 of `src/main.py`. -/
structure UpdateOp where
  task_id : String
  content : String
  due_date : Option String
  priority : Nat
  description : String
deriving DecidableEq, Repr

/-- The add payload built on lines 157-163 of `src/main.py`. -/
structure AddOp where
  content : String
  project_id : String
  due_date : Option String
  priority : Nat
  description : String
deriving DecidableEq, Repr

/-- The update record appended for a ticket found in the map
(lines 145-154 of `src/main.py`). -/
def mkUpdateOp (serverUrl : String) (tk : Ticket) (existingTask : TodoTask) : UpdateOp :=
  { task_id := existingTask.id
    content := task_content tk
    due_date := tk.due_date
    priority := ticket_priority tk
    description := task_description serverUrl tk }

/-- The add record appended for a ticket absent from the map
(lines 155-163 of `src/main.py`). -/
def mkAddOp (serverUrl projectId : String) (tk : Ticket) : AddOp :=
  { content := task_content tk
    project_id := projectId
    due_date := tk.due_date
    priority := ticket_priority tk
    description := task_description serverUrl tk }

/-- The four operation lists accumulated by `sync_to_todoist`
(lines 109-113 of `src/main.py`). -/
structure SyncOps where
  updates : List UpdateOp
  adds : List AddOp
  completes : List String
  deletes : List String
deriving DecidableEq, Repr

/-- Line 115 of `src/main.py`:
`jira_ticket_keys = {ticket["key"] for ticket in jira_tickets}` (modelled as
the key list; only membership is ever used). -/
def jiraTicketKeys (jira_tickets : List Ticket) : List String :=
  jira_tickets.map (fun tk => tk.key)

/-- Lines 117-119 of `src/main.py`: the keys of the tickets whose status is
Blocked or Cancelled. -/
def blockedOrCancelledKeys (jira_tickets : List Ticket) : List String :=
  (jira_tickets.filter (fun tk => isBlockedOrCancelled tk)).map (fun tk => tk.key)

/-- The per-ticket body of the first loop of `sync_to_todoist`
(lines 121-154 of `src/main.py`), restricted to its update outcome: skip a
Blocked/Cancelled ticket, emit an update when the ticket key is in the map. -/
def updateFor (serverUrl : String) (existing_task_map : List (String × TodoTask))
    (tk : Ticket) : Option UpdateOp :=
  if isBlockedOrCancelled tk then none
  else
    match dictLookup existing_task_map tk.key with
    | some existingTask => some (mkUpdateOp serverUrl tk existingTask)
    | none => none

/-- The per-ticket body of the first loop of `sync_to_todoist`
(lines 121-163 of `src/main.py`), restricted to its add outcome: skip a
Blocked/Cancelled ticket, emit an add when the ticket key is not in the map. -/
def addFor (serverUrl projectId : String) (existing_task_map : List (String × TodoTask))
    (tk : Ticket) : Option AddOp :=
  if isBlockedOrCancelled tk then none
  else
    match dictLookup existing_task_map tk.key with
    | some _ => none
    | none => some (mkAddOp serverUrl projectId tk)

/-- The per-entry body of the second loop of `sync_to_todoist`
(lines 166-168 of `src/main.py`), restricted to its complete outcome: a map
entry whose key is not among the current ticket keys is marked done. -/
def completeFor (jira_ticket_keys : List String) (p : String × TodoTask) : Option String :=
  if p.1 ∈ jira_ticket_keys then none else some p.2.id

/-- The per-entry body of the second loop of `sync_to_todoist`
(lines 166-170 of `src/main.py`), restricted to its delete outcome: a map
entry whose key is among the current ticket keys and among the
Blocked/Cancelled keys is deleted (the `elif` of line 169). -/
def deleteFor (jira_ticket_keys blocked_keys : List String) (p : String × TodoTask) :
    Option String :=
  if p.1 ∈ jira_ticket_keys then
    (if p.1 ∈ blocked_keys then some p.2.id else none)
  else none

/-- The pure reconciliation core of `sync_to_todoist`
(lines 101-170 of `src/main.py`): build the key-to-task map, classify each
non-Blocked/Cancelled ticket into an update (key present in the map) or an
add (key absent), then classify each map entry into a complete (key not
among the ticket keys) or a delete (key among the ticket keys and among the
Blocked/Cancelled ticket keys). -/
def sync_to_todoist (serverUrl projectId : String) (jira_tickets : List Ticket)
    (existing_tasks : List TodoTask) : SyncOps :=
  let existing_task_map := buildTaskMap existing_tasks
  { updates := jira_tickets.filterMap (updateFor serverUrl existing_task_map)
    adds := jira_tickets.filterMap (addFor serverUrl projectId existing_task_map)
    completes := existing_task_map.filterMap (completeFor (jiraTicketKeys jira_tickets))
    deletes := existing_task_map.filterMap
      (deleteFor (jiraTicketKeys jira_tickets) (blockedOrCancelledKeys jira_tickets)) }

example :
    sync_to_todoist "https://jira.example.com" "7"
      [{ key := "OPS-1", summary := "Fix disk", due_date := none,
         priority := some "Critical", status := some "Open", issuetype := none }]
      [] =
    { updates := []
      adds := [{ content := "OPS-1: Fix disk", project_id := "7", due_date := none,
                 priority := 1,
                 description := "https://jira.example.com/browse/OPS-1" }]
      completes := []
      deletes := [] } := by decide

example :
    sync_to_todoist "https://jira.example.com" "7"
      [{ key := "OPS-1", summary := "Fix disk", due_date := none,
         priority := some "Blocker", status := some "Blocked", issuetype := none }]
      [{ id := "t1", content := "OPS-1: Fix disk", due_date := none, priority := 1,
         description := "" }] =
    { updates := [], adds := [], completes := [], deletes := ["t1"] } := by decide

example :
    sync_to_todoist "https://jira.example.com" "7" []
      [{ id := "t9", content := "OPS-2: Old summary", due_date := none, priority := 4,
         description := "" }] =
    { updates := [], adds := [], completes := ["t9"], deletes := [] } := by decide

/-! Dictionary lemmas: the association-list operations above implement the
semantics of the Python dict used on lines 104 and 166 of `src/main.py`. -/

lemma dictLookup_nil (k : String) : dictLookup [] k = none := rfl

lemma dictLookup_cons (p : String × TodoTask) (m : List (String × TodoTask)) (k : String) :
    dictLookup (p :: m) k = if p.1 = k then some p.2 else dictLookup m k := by
  by_cases h : p.1 = k <;> simp [dictLookup, List.find?_cons, h]

lemma dictLookup_append (m₁ m₂ : List (String × TodoTask)) (k : String) :
    dictLookup (m₁ ++ m₂) k =
      (dictLookup m₁ k).or (dictLookup m₂ k) := by
  induction m₁ with
  | nil => simp [dictLookup_nil]
  | cons p m ih =>
    rw [List.cons_append, dictLookup_cons, dictLookup_cons]
    by_cases h : p.1 = k <;> simp [h, ih]

lemma dictLookup_dictInsert_self (m : List (String × TodoTask)) (k : String) (v : TodoTask) :
    dictLookup (dictInsert m k v) k = some v := by
  unfold dictInsert
  split
  · induction m with
    | nil => simp at *
    | cons p ps ih =>
      by_cases hp : p.1 = k
      · simp [dictLookup_cons, hp]
      · rename_i h
        simp only [List.any_cons, Bool.or_eq_true, beq_iff_eq] at h
        rcases h with h | h
        · exact absurd h hp
        · have := ih (by simpa using h)
          simpa [dictLookup_cons, hp] using this
  · rw [dictLookup_append, dictLookup_cons]
    rename_i h
    have hnone : dictLookup m k = none := by
      induction m with
      | nil => rfl
      | cons p ps ih =>
        simp only [List.any_cons, Bool.or_eq_true, beq_iff_eq, not_or] at h
        rw [dictLookup_cons, if_neg h.1]
        exact ih (by simpa using h.2)
    simp [hnone]

lemma dictLookup_map_replace (m : List (String × TodoTask)) (k k' : String) (v : TodoTask)
    (h : k' ≠ k) :
    dictLookup (m.map (fun p => if p.1 == k then (k, v) else p)) k' = dictLookup m k' := by
  induction m with
  | nil => rfl
  | cons p ps ih =>
    rw [List.map_cons]
    by_cases hp : p.1 = k
    · rw [if_pos (by simpa using hp), dictLookup_cons, dictLookup_cons]
      rw [if_neg (Ne.symm h), if_neg (by rw [hp]; exact Ne.symm h), ih]
    · rw [if_neg (by simpa using hp), dictLookup_cons, dictLookup_cons, ih]

lemma dictLookup_dictInsert_ne (m : List (String × TodoTask)) (k k' : String) (v : TodoTask)
    (h : k' ≠ k) : dictLookup (dictInsert m k v) k' = dictLookup m k' := by
  unfold dictInsert
  split
  · exact dictLookup_map_replace m k k' v h
  · rw [dictLookup_append, dictLookup_cons, if_neg (Ne.symm h)]
    simp [dictLookup_nil]

lemma keys_map_replace (m : List (String × TodoTask)) (k : String) (v : TodoTask) :
    (m.map (fun p => if p.1 == k then (k, v) else p)).map Prod.fst = m.map Prod.fst := by
  rw [List.map_map]
  apply List.map_congr_left
  intro p _
  by_cases h : p.1 = k <;> simp [h]

lemma mem_keys_dictInsert (m : List (String × TodoTask)) (k : String) (v : TodoTask)
    (k' : String) :
    k' ∈ (dictInsert m k v).map Prod.fst ↔ k' ∈ m.map Prod.fst ∨ k' = k := by
  unfold dictInsert
  split
  · rw [keys_map_replace]
    rename_i h
    rcases List.any_eq_true.mp h with ⟨p, hp, hpk⟩
    constructor
    · exact Or.inl
    · rintro (h' | rfl)
      · exact h'
      · exact List.mem_map.mpr ⟨p, hp, by simpa using hpk⟩
  · simp

lemma nodup_keys_dictInsert (m : List (String × TodoTask)) (k : String) (v : TodoTask)
    (hm : (m.map Prod.fst).Nodup) : ((dictInsert m k v).map Prod.fst).Nodup := by
  unfold dictInsert
  split
  · rwa [keys_map_replace]
  · rename_i h
    rw [List.map_append]
    refine List.nodup_append.mpr ⟨hm, List.nodup_singleton k, ?_⟩
    intro x hx hx'
    rcases List.mem_map.mp hx with ⟨p, hp, rfl⟩
    have : p.1 = k := by simpa using hx'
    exact h (List.any_eq_true.mpr ⟨p, hp, by simp [this]⟩)

lemma mem_dictInsert (m : List (String × TodoTask)) (k : String) (v : TodoTask)
    (p : String × TodoTask) (hp : p ∈ dictInsert m k v) : p ∈ m ∨ p = (k, v) := by
  unfold dictInsert at hp
  split at hp
  · rcases List.mem_map.mp hp with ⟨q, hq, hqp⟩
    by_cases h : q.1 = k
    · right; rw [← hqp]; simp [h]
    · left; rw [← hqp]; simpa [h] using hq
  · rcases List.mem_append.mp hp with h | h
    · exact Or.inl h
    · right; simpa using h

lemma nodup_keys_foldl (ts : List TodoTask) (m : List (String × TodoTask))
    (hm : (m.map Prod.fst).Nodup) :
    ((ts.foldl (fun m t => dictInsert m (taskKey t.content) t) m).map Prod.fst).Nodup := by
  induction ts generalizing m with
  | nil => exact hm
  | cons t ts ih => exact ih _ (nodup_keys_dictInsert _ _ _ hm)

lemma nodup_keys_buildTaskMap (ts : List TodoTask) :
    ((buildTaskMap ts).map Prod.fst).Nodup :=
  nodup_keys_foldl ts [] List.nodup_nil

lemma mem_foldl_dictInsert (ts : List TodoTask) (m : List (String × TodoTask))
    (p : String × TodoTask)
    (hp : p ∈ ts.foldl (fun m t => dictInsert m (taskKey t.content) t) m) :
    p ∈ m ∨ ∃ t ∈ ts, p = (taskKey t.content, t) := by
  induction ts generalizing m with
  | nil => exact Or.inl hp
  | cons t ts ih =>
    rcases ih _ hp with h | ⟨t', ht', rfl⟩
    · rcases mem_dictInsert _ _ _ _ h with h' | rfl
      · exact Or.inl h'
      · exact Or.inr ⟨t, List.mem_cons_self t ts, rfl⟩
    · exact Or.inr ⟨t', List.mem_cons_of_mem t ht', rfl⟩

/-- Every entry of the key-to-task map is an existing task stored under the
raw before-the-colon slice of its own content. -/
lemma mem_buildTaskMap (ts : List TodoTask) (p : String × TodoTask)
    (hp : p ∈ buildTaskMap ts) : p.2 ∈ ts ∧ p.1 = taskKey p.2.content := by
  rcases mem_foldl_dictInsert ts [] p hp with h | ⟨t, ht, rfl⟩
  · simp at h
  · exact ⟨ht, rfl⟩

lemma mem_keys_foldl (ts : List TodoTask) (m : List (String × TodoTask)) (k : String) :
    k ∈ ((ts.foldl (fun m t => dictInsert m (taskKey t.content) t) m).map Prod.fst) ↔
      k ∈ m.map Prod.fst ∨ ∃ t ∈ ts, taskKey t.content = k := by
  induction ts generalizing m with
  | nil => simp
  | cons t ts ih =>
    rw [List.foldl_cons, ih, mem_keys_dictInsert]
    constructor
    · rintro (⟨h | h⟩ | h)
      · exact Or.inl h
      · exact Or.inr ⟨t, List.mem_cons_self t ts, h.symm⟩
      · rcases h with ⟨t', ht', h⟩
        exact Or.inr ⟨t', List.mem_cons_of_mem t ht', h⟩
    · rintro (h | ⟨t', ht', h⟩)
      · exact Or.inl (Or.inl h)
      · rcases List.mem_cons.mp ht' with rfl | ht''
        · exact Or.inl (Or.inr h.symm)
        · exact Or.inr ⟨t', ht'', h⟩

/-- The keys of the map built on line 104 of `src/main.py` are exactly the
parsed keys of the existing tasks. -/
lemma mem_keys_buildTaskMap (ts : List TodoTask) (k : String) :
    k ∈ (buildTaskMap ts).map Prod.fst ↔ ∃ t ∈ ts, taskKey t.content = k := by
  rw [buildTaskMap, mem_keys_foldl]
  simp

lemma dictLookup_eq_some_of_mem (m : List (String × TodoTask)) (k : String) (t : TodoTask)
    (hm : (m.map Prod.fst).Nodup) (hp : (k, t) ∈ m) : dictLookup m k = some t := by
  induction m with
  | nil => simp at hp
  | cons q ps ih =>
    rcases List.mem_cons.mp hp with rfl | hmem
    · rw [dictLookup_cons, if_pos rfl]
    · rw [dictLookup_cons]
      have hk : k ∈ ps.map Prod.fst := List.mem_map.mpr ⟨(k, t), hmem, rfl⟩
      have hq : q.1 ≠ k := by
        intro h
        rw [List.map_cons] at hm
        exact (List.nodup_cons.mp hm).1 (h ▸ hk)
      rw [if_neg hq]
      exact ih (List.nodup_cons.mp (List.map_cons Prod.fst q ps ▸ hm)).2 hmem

lemma buildTaskMap_concat (ts : List TodoTask) (t : TodoTask) :
    buildTaskMap (ts ++ [t]) = dictInsert (buildTaskMap ts) (taskKey t.content) t := by
  rw [buildTaskMap, List.foldl_append]
  rfl

/-- Lookup in the map of line 104 of `src/main.py` returns the last listed
task whose content parses to the requested key: a later duplicate overwrites
an earlier one, exactly as in the Python dict comprehension. -/
lemma dictLookup_buildTaskMap (ts : List TodoTask) (k : String) :
    dictLookup (buildTaskMap ts) k =
      (ts.filter (fun t => taskKey t.content == k)).getLast? := by
  induction ts using List.reverseRecOn with
  | nil => rfl
  | append_singleton ts t ih =>
    rw [buildTaskMap_concat, List.filter_append]
    by_cases h : taskKey t.content = k
    · rw [h, dictLookup_dictInsert_self]
      simp [h]
    · rw [dictLookup_dictInsert_ne _ _ _ _ (fun hk => h hk.symm), ih]
      simp [h]

/-! Projection equations and membership characterizations for the four
operation lists of `sync_to_todoist`. -/

lemma sync_updates_def (serverUrl projectId : String) (tks : List Ticket) (ts : List TodoTask) :
    (sync_to_todoist serverUrl projectId tks ts).updates =
      tks.filterMap (updateFor serverUrl (buildTaskMap ts)) := rfl

lemma sync_adds_def (serverUrl projectId : String) (tks : List Ticket) (ts : List TodoTask) :
    (sync_to_todoist serverUrl projectId tks ts).adds =
      tks.filterMap (addFor serverUrl projectId (buildTaskMap ts)) := rfl

lemma sync_completes_def (serverUrl projectId : String) (tks : List Ticket) (ts : List TodoTask) :
    (sync_to_todoist serverUrl projectId tks ts).completes =
      (buildTaskMap ts).filterMap (completeFor (jiraTicketKeys tks)) := rfl

lemma sync_deletes_def (serverUrl projectId : String) (tks : List Ticket) (ts : List TodoTask) :
    (sync_to_todoist serverUrl projectId tks ts).deletes =
      (buildTaskMap ts).filterMap
        (deleteFor (jiraTicketKeys tks) (blockedOrCancelledKeys tks)) := rfl

lemma updateFor_eq_some (serverUrl : String) (m : List (String × TodoTask)) (tk : Ticket)
    (u : UpdateOp) :
    updateFor serverUrl m tk = some u ↔
      isBlockedOrCancelled tk = false ∧
        ∃ task, dictLookup m tk.key = some task ∧ u = mkUpdateOp serverUrl tk task := by
  unfold updateFor
  by_cases hb : isBlockedOrCancelled tk
  · simp [hb]
  · rw [if_neg hb]
    cases hl : dictLookup m tk.key with
    | none => simp [hl, hb]
    | some task => simp [hl, Bool.eq_false_iff.mpr hb, eq_comm]

lemma addFor_eq_some (serverUrl projectId : String) (m : List (String × TodoTask))
    (tk : Ticket) (a : AddOp) :
    addFor serverUrl projectId m tk = some a ↔
      isBlockedOrCancelled tk = false ∧ dictLookup m tk.key = none ∧
        a = mkAddOp serverUrl projectId tk := by
  unfold addFor
  by_cases hb : isBlockedOrCancelled tk
  · simp [hb]
  · rw [if_neg hb]
    cases hl : dictLookup m tk.key with
    | none => simp [hl, Bool.eq_false_iff.mpr hb, eq_comm]
    | some task => simp [hl, hb]

lemma completeFor_eq_some (jira_ticket_keys : List String) (p : String × TodoTask)
    (i : String) :
    completeFor jira_ticket_keys p = some i ↔
      p.1 ∉ jira_ticket_keys ∧ i = p.2.id := by
  unfold completeFor
  by_cases h : p.1 ∈ jira_ticket_keys <;> simp [h, eq_comm]

lemma deleteFor_eq_some (jira_ticket_keys blocked_keys : List String)
    (p : String × TodoTask) (i : String) :
    deleteFor jira_ticket_keys blocked_keys p = some i ↔
      p.1 ∈ jira_ticket_keys ∧ p.1 ∈ blocked_keys ∧ i = p.2.id := by
  unfold deleteFor
  by_cases h : p.1 ∈ jira_ticket_keys
  · by_cases h' : p.1 ∈ blocked_keys <;> simp [h, h', eq_comm]
  · simp [h]

lemma mem_blockedOrCancelledKeys (tks : List Ticket) (k : String) :
    k ∈ blockedOrCancelledKeys tks ↔
      ∃ tk ∈ tks, isBlockedOrCancelled tk = true ∧ tk.key = k := by
  unfold blockedOrCancelledKeys
  simp [List.mem_filter]
  constructor
  · rintro ⟨tk, ⟨htk, hb⟩, rfl⟩
    exact ⟨tk, htk, hb, rfl⟩
  · rintro ⟨tk, htk, hb, rfl⟩
    exact ⟨tk, ⟨htk, hb⟩, rfl⟩

lemma mem_jiraTicketKeys (tks : List Ticket) (k : String) :
    k ∈ jiraTicketKeys tks ↔ ∃ tk ∈ tks, tk.key = k := by
  unfold jiraTicketKeys
  simp

/-! Counting helpers. -/

lemma countP_filterMap_list {α β : Type} (f : α → Option β) (q : β → Bool) (l : List α) :
    (l.filterMap f).countP q = l.countP (fun a => ((f a).map q).getD false) := by
  induction l with
  | nil => rfl
  | cons a l ih =>
    rw [List.filterMap_cons]
    cases hf : f a with
    | none => rw [List.countP_cons, hf]; simp [ih]
    | some b => rw [List.countP_cons, List.countP_cons, hf]; simp [ih]

lemma countP_eq_one_of_unique {α : Type} (l : List α) (q : α → Bool) (a : α)
    (hl : l.Nodup) (ha : a ∈ l) (hqa : q a = true)
    (huniq : ∀ x ∈ l, q x = true → x = a) : l.countP q = 1 := by
  induction l with
  | nil => simp at ha
  | cons b l ih =>
    rw [List.countP_cons]
    rcases List.mem_cons.mp ha with rfl | hmem
    · have hz : l.countP q = 0 := by
        rw [List.countP_eq_zero]
        intro x hx hqx
        exact (List.nodup_cons.mp hl).1 ((huniq x (List.mem_cons_of_mem a hx) hqx) ▸ hx)
      simp [hz, hqa]
    · have hb : q b = false := by
        rcases Bool.eq_false_or_eq_true (q b) with h | h
        · exact absurd ((huniq b (List.mem_cons_self b l) h) ▸ hmem)
            (List.nodup_cons.mp hl).1
        · exact h
      rw [hb]
      simpa using ih (List.nodup_cons.mp hl).2 hmem
        (fun x hx hqx => huniq x (List.mem_cons_of_mem b hx) hqx)

/-! String lemmas: the content convention of line 129 of `src/main.py`
round-trips through the parsing of line 104 whenever the ticket key itself
contains no colon. -/

lemma beforeColon_append_colon (l r : List Char) (h : ':' ∉ l) :
    beforeColon (l ++ ':' :: r) = l := by
  induction l with
  | nil => simp [beforeColon]
  | cons c cs ih =>
    rw [List.cons_append, beforeColon]
    rw [if_neg (fun hc : c = ':' => h (by rw [hc]; exact List.mem_cons_self ':' cs))]
    rw [ih (fun hc => h (List.mem_cons_of_mem c hc))]

lemma beforeColon_of_no_colon (l : List Char) (h : ':' ∉ l) : beforeColon l = l := by
  induction l with
  | nil => rfl
  | cons c cs ih =>
    rw [beforeColon, if_neg (fun hc : c = ':' => h (by rw [hc]; exact List.mem_cons_self ':' cs))]
    rw [ih (fun hc => h (List.mem_cons_of_mem c hc))]

/-- Parsing the content written by the script recovers the ticket key,
provided the key itself contains no colon. -/
lemma taskKey_task_content (tk : Ticket) (h : ':' ∉ tk.key.data) :
    taskKey (task_content tk) = tk.key := by
  unfold taskKey task_content
  apply String.ext
  show beforeColon ((tk.key ++ ": " ++ tk.summary).data) = tk.key.data
  rw [String.data_append, String.data_append]
  have h2 : (": " : String).data = ':' :: [' '] := rfl
  rw [h2, List.append_assoc, List.cons_append]
  exact beforeColon_append_colon _ _ h

/-- A task whose content contains no colon at all is keyed by its full
content (Python `split` returns the whole string in one piece). -/
lemma taskKey_of_no_colon (s : String) (h : ':' ∉ s.data) : taskKey s = s := by
  unfold taskKey
  rw [beforeColon_of_no_colon s.data h]

/-! Membership characterizations of the four operation lists. -/

lemma mem_of_dictLookup (m : List (String × TodoTask)) (k : String) (t : TodoTask)
    (h : dictLookup m k = some t) : (k, t) ∈ m := by
  unfold dictLookup at h
  cases hf : m.find? (fun p => p.1 == k) with
  | none => rw [hf] at h; simp at h
  | some p =>
    rw [hf] at h
    have hp : p ∈ m := List.mem_of_find?_eq_some hf
    have hk : p.1 = k := by simpa using List.find?_some hf
    have ht : p.2 = t := by simpa using h
    rw [← hk, ← ht]
    exact hp

lemma mem_sync_updates (serverUrl projectId : String) (tks : List Ticket)
    (ts : List TodoTask) (u : UpdateOp) :
    u ∈ (sync_to_todoist serverUrl projectId tks ts).updates ↔
      ∃ tk ∈ tks, isBlockedOrCancelled tk = false ∧
        ∃ task, dictLookup (buildTaskMap ts) tk.key = some task ∧
          u = mkUpdateOp serverUrl tk task := by
  rw [sync_updates_def, List.mem_filterMap]
  constructor
  · rintro ⟨tk, htk, hf⟩
    rcases (updateFor_eq_some _ _ _ _).mp hf with ⟨hb, task, hl, rfl⟩
    exact ⟨tk, htk, hb, task, hl, rfl⟩
  · rintro ⟨tk, htk, hb, task, hl, rfl⟩
    exact ⟨tk, htk, (updateFor_eq_some _ _ _ _).mpr ⟨hb, task, hl, rfl⟩⟩

lemma mem_sync_adds (serverUrl projectId : String) (tks : List Ticket)
    (ts : List TodoTask) (a : AddOp) :
    a ∈ (sync_to_todoist serverUrl projectId tks ts).adds ↔
      ∃ tk ∈ tks, isBlockedOrCancelled tk = false ∧
        dictLookup (buildTaskMap ts) tk.key = none ∧
        a = mkAddOp serverUrl projectId tk := by
  rw [sync_adds_def, List.mem_filterMap]
  constructor
  · rintro ⟨tk, htk, hf⟩
    rcases (addFor_eq_some _ _ _ _ _).mp hf with ⟨hb, hl, rfl⟩
    exact ⟨tk, htk, hb, hl, rfl⟩
  · rintro ⟨tk, htk, hb, hl, rfl⟩
    exact ⟨tk, htk, (addFor_eq_some _ _ _ _ _).mpr ⟨hb, hl, rfl⟩⟩

lemma mem_sync_completes (serverUrl projectId : String) (tks : List Ticket)
    (ts : List TodoTask) (i : String) :
    i ∈ (sync_to_todoist serverUrl projectId tks ts).completes ↔
      ∃ p ∈ buildTaskMap ts, p.1 ∉ jiraTicketKeys tks ∧ i = p.2.id := by
  rw [sync_completes_def, List.mem_filterMap]
  constructor
  · rintro ⟨p, hp, hf⟩
    rcases (completeFor_eq_some _ _ _).mp hf with ⟨hk, rfl⟩
    exact ⟨p, hp, hk, rfl⟩
  · rintro ⟨p, hp, hk, rfl⟩
    exact ⟨p, hp, (completeFor_eq_some _ _ _).mpr ⟨hk, rfl⟩⟩

lemma mem_sync_deletes (serverUrl projectId : String) (tks : List Ticket)
    (ts : List TodoTask) (i : String) :
    i ∈ (sync_to_todoist serverUrl projectId tks ts).deletes ↔
      ∃ p ∈ buildTaskMap ts, p.1 ∈ jiraTicketKeys tks ∧
        p.1 ∈ blockedOrCancelledKeys tks ∧ i = p.2.id := by
  rw [sync_deletes_def, List.mem_filterMap]
  constructor
  · rintro ⟨p, hp, hf⟩
    rcases (deleteFor_eq_some _ _ _ _).mp hf with ⟨hk, hb, rfl⟩
    exact ⟨p, hp, hk, hb, rfl⟩
  · rintro ⟨p, hp, hk, hb, rfl⟩
    exact ⟨p, hp, (deleteFor_eq_some _ _ _ _).mpr ⟨hk, hb, rfl⟩⟩

/-! Core facts shared by several observations below. -/

lemma entry_eq_of_id_eq (ts : List TodoTask) (hids : (ts.map (fun t => t.id)).Nodup)
    (p q : String × TodoTask) (hp : p ∈ buildTaskMap ts) (hq : q ∈ buildTaskMap ts)
    (h : p.2.id = q.2.id) : p = q := by
  obtain ⟨hpmem, hpkey⟩ := mem_buildTaskMap ts p hp
  obtain ⟨hqmem, hqkey⟩ := mem_buildTaskMap ts q hq
  have h2 : p.2 = q.2 := List.inj_on_of_nodup_map hids hpmem hqmem h
  have h1 : p.1 = q.1 := by rw [hpkey, hqkey, h2]
  exact Prod.ext h1 h2

/-- A map entry whose key is not among the current ticket keys receives
exactly one complete operation and no update and no delete. -/
lemma untracked_entry_ops (serverUrl projectId : String) (tks : List Ticket)
    (ts : List TodoTask) (hids : (ts.map (fun t => t.id)).Nodup)
    (p : String × TodoTask) (hp : p ∈ buildTaskMap ts)
    (hnot : p.1 ∉ jiraTicketKeys tks) :
    ((sync_to_todoist serverUrl projectId tks ts).completes.countP
        (fun i => i == p.2.id) = 1) ∧
    (∀ u ∈ (sync_to_todoist serverUrl projectId tks ts).updates, u.task_id ≠ p.2.id) ∧
    p.2.id ∉ (sync_to_todoist serverUrl projectId tks ts).deletes := by
  refine ⟨?_, ?_, ?_⟩
  · rw [sync_completes_def, countP_filterMap_list]
    apply countP_eq_one_of_unique _ _ p
      (List.Nodup.of_map Prod.fst (nodup_keys_buildTaskMap ts)) hp
    · simp [completeFor, hnot]
    · intro q hq hpred
      have : q.1 ∉ jiraTicketKeys tks ∧ q.2.id = p.2.id := by
        by_cases hqk : q.1 ∈ jiraTicketKeys tks
        · simp [completeFor, hqk] at hpred
        · refine ⟨hqk, ?_⟩
          simpa [completeFor, hqk] using hpred
      exact entry_eq_of_id_eq ts hids q p hq hp this.2
  · intro u hu
    rcases (mem_sync_updates _ _ _ _ _).mp hu with ⟨tk, htk, _, task, hl, rfl⟩
    have hmem : (tk.key, task) ∈ buildTaskMap ts := mem_of_dictLookup _ _ _ hl
    intro hid
    have heq : (tk.key, task) = p :=
      entry_eq_of_id_eq ts hids (tk.key, task) p hmem hp hid
    apply hnot
    rw [← (congrArg Prod.fst heq)]
    exact List.mem_map.mpr ⟨tk, htk, rfl⟩
  · intro hd
    rcases (mem_sync_deletes _ _ _ _ _).mp hd with ⟨q, hq, hqk, _, hqid⟩
    have heq : q = p := entry_eq_of_id_eq ts hids q p hq hp hqid.symm
    exact hnot (heq ▸ hqk)

/-- Claim C1 is false on `src/main.py`: a task whose content has no `":"`
is nevertheless keyed (by its full content) into `existing_task_map`
(line 104 performs no trimming and no validation), and since that key
matches no current ticket key the task receives a complete operation
(line 168) rather than being left untouched. -/
theorem C1_counterexample :
    (':' ∉ ("hello" : String).data) ∧
    (sync_to_todoist "https://jira.example.com" "7" []
        [{ id := "t1", content := "hello", due_date := none, priority := 4,
           description := "" }]).completes = ["t1"] := by
  constructor
  · decide
  · decide

/-- Claim C1 as amended: for every existing task, the association key is the
raw untrimmed substring of its content before the first `":"` (the full
content when there is no `":"`), with no validation against the current
ticket keys; and every map-retained task whose key is not among the current
ticket keys is not left untouched — it receives exactly one complete
operation (and no update and no delete) in that pass. -/
theorem C1_amended (serverUrl projectId : String) (tks : List Ticket)
    (ts : List TodoTask) (hids : (ts.map (fun t => t.id)).Nodup)
    (p : String × TodoTask) (hp : p ∈ buildTaskMap ts) :
    (p.2 ∈ ts ∧ p.1 = taskKey p.2.content) ∧
    (p.1 ∉ jiraTicketKeys tks →
      ((sync_to_todoist serverUrl projectId tks ts).completes.countP
          (fun i => i == p.2.id) = 1) ∧
      (∀ u ∈ (sync_to_todoist serverUrl projectId tks ts).updates, u.task_id ≠ p.2.id) ∧
      p.2.id ∉ (sync_to_todoist serverUrl projectId tks ts).deletes) :=
  ⟨mem_buildTaskMap ts p hp,
   fun hnot => untracked_entry_ops serverUrl projectId tks ts hids p hp hnot⟩

/-- Witness for C1 as amended, at the counterexample's input. -/
theorem C1_witness :
    (([({ id := "t1", content := "hello", due_date := none, priority := 4,
          description := "" } : TodoTask)].map (fun t => t.id)).Nodup ∧
      ("hello", ({ id := "t1", content := "hello", due_date := none, priority := 4,
                   description := "" } : TodoTask)) ∈
        buildTaskMap [{ id := "t1", content := "hello", due_date := none, priority := 4,
                        description := "" }] ∧
      "hello" ∉ jiraTicketKeys []) ∧
    (sync_to_todoist "https://jira.example.com" "7" []
        [{ id := "t1", content := "hello", due_date := none, priority := 4,
           description := "" }]).completes.countP (fun i => i == "t1") = 1 :=
  ⟨⟨by decide, by decide, by decide⟩,
   ((C1_amended "https://jira.example.com" "7" []
        [{ id := "t1", content := "hello", due_date := none, priority := 4,
           description := "" }] (by decide)
        ("hello", { id := "t1", content := "hello", due_date := none, priority := 4,
                    description := "" }) (by decide)).2 (by decide)).1⟩

/-- Claim C4: every map-retained ("tracked") task whose parsed key does not
appear among the current ticket keys gets exactly one complete operation
(the non-destructive mark-done of line 168 of `src/main.py`), and no update
and no delete operation in the same pass. -/
theorem C4_vanished_ticket_completes (serverUrl projectId : String) (tks : List Ticket)
    (ts : List TodoTask) (hids : (ts.map (fun t => t.id)).Nodup)
    (p : String × TodoTask) (hp : p ∈ buildTaskMap ts)
    (hnot : p.1 ∉ jiraTicketKeys tks) :
    ((sync_to_todoist serverUrl projectId tks ts).completes.countP
        (fun i => i == p.2.id) = 1) ∧
    (∀ u ∈ (sync_to_todoist serverUrl projectId tks ts).updates, u.task_id ≠ p.2.id) ∧
    p.2.id ∉ (sync_to_todoist serverUrl projectId tks ts).deletes :=
  untracked_entry_ops serverUrl projectId tks ts hids p hp hnot

/-- Witness for C4: existing task "OPS-2: Old summary", no ticket with key
"OPS-2" among the tickets passed in — one complete, no update, no delete. -/
theorem C4_witness :
    (([({ id := "t9", content := "OPS-2: Old summary", due_date := none, priority := 4,
          description := "" } : TodoTask)].map (fun t => t.id)).Nodup ∧
      ("OPS-2", ({ id := "t9", content := "OPS-2: Old summary", due_date := none,
                   priority := 4, description := "" } : TodoTask)) ∈
        buildTaskMap [{ id := "t9", content := "OPS-2: Old summary", due_date := none,
                        priority := 4, description := "" }] ∧
      "OPS-2" ∉ jiraTicketKeys []) ∧
    ((sync_to_todoist "https://jira.example.com" "7" []
        [{ id := "t9", content := "OPS-2: Old summary", due_date := none, priority := 4,
           description := "" }]).completes.countP (fun i => i == "t9") = 1) ∧
    "t9" ∉ (sync_to_todoist "https://jira.example.com" "7" []
        [{ id := "t9", content := "OPS-2: Old summary", due_date := none, priority := 4,
           description := "" }]).deletes :=
  ⟨⟨by decide, by decide, by decide⟩,
   (C4_vanished_ticket_completes "https://jira.example.com" "7" []
     [{ id := "t9", content := "OPS-2: Old summary", due_date := none, priority := 4,
        description := "" }] (by decide)
     ("OPS-2", { id := "t9", content := "OPS-2: Old summary", due_date := none,
                 priority := 4, description := "" }) (by decide) (by decide)).1,
   (C4_vanished_ticket_completes "https://jira.example.com" "7" []
     [{ id := "t9", content := "OPS-2: Old summary", due_date := none, priority := 4,
        description := "" }] (by decide)
     ("OPS-2", { id := "t9", content := "OPS-2: Old summary", due_date := none,
                 priority := 4, description := "" }) (by decide) (by decide)).2.2⟩

lemma dictLookup_eq_none_iff (m : List (String × TodoTask)) (k : String) :
    dictLookup m k = none ↔ k ∉ m.map Prod.fst := by
  constructor
  · intro h hk
    rcases List.mem_map.mp hk with ⟨p, hp, rfl⟩
    unfold dictLookup at h
    rcases Option.map_eq_none'.mp h with hf
    have := List.find?_eq_none.mp hf p hp
    simp at this
  · intro h
    have hf : m.find? (fun p => p.1 == k) = none := by
      rw [List.find?_eq_none]
      intro p hp
      simp only [beq_iff_eq]
      intro he
      exact h (List.mem_map.mpr ⟨p, hp, he⟩)
    unfold dictLookup
    rw [hf]
    rfl

lemma optionPredD {β : Type} (o : Option β) (q : β → Bool)
    (h : ((o.map q).getD false) = true) : ∃ b, o = some b ∧ q b = true := by
  cases o with
  | none => simp at h
  | some b => exact ⟨b, rfl, by simpa using h⟩

/-- Claim C10: duplicate parsed keys among the existing tasks are resolved
in favour of the last listed task (the Python dict comprehension of
line 104 of `src/main.py` overwrites earlier entries), and a shadowed
earlier task receives no operation of any kind in that pass. -/
theorem C10_last_duplicate_wins (serverUrl projectId : String) (tks : List Ticket)
    (ts : List TodoTask) (hids : (ts.map (fun t => t.id)).Nodup) :
    (∀ k, dictLookup (buildTaskMap ts) k =
        (ts.filter (fun t => taskKey t.content == k)).getLast?) ∧
    (∀ t1 ∈ ts, dictLookup (buildTaskMap ts) (taskKey t1.content) ≠ some t1 →
      (∀ u ∈ (sync_to_todoist serverUrl projectId tks ts).updates, u.task_id ≠ t1.id) ∧
      t1.id ∉ (sync_to_todoist serverUrl projectId tks ts).completes ∧
      t1.id ∉ (sync_to_todoist serverUrl projectId tks ts).deletes) := by
  refine ⟨dictLookup_buildTaskMap ts, ?_⟩
  intro t1 ht1 hshadow
  have hkey : ∀ q ∈ buildTaskMap ts, q.2.id ≠ t1.id := by
    intro q hq hid
    obtain ⟨hqm, hqk⟩ := mem_buildTaskMap ts q hq
    have h2 : q.2 = t1 := List.inj_on_of_nodup_map hids hqm ht1 hid
    apply hshadow
    have hl : dictLookup (buildTaskMap ts) q.1 = some q.2 :=
      dictLookup_eq_some_of_mem _ q.1 q.2 (nodup_keys_buildTaskMap ts)
        (by rw [← Prod.mk.eta (p := q)] at hq; exact hq)
    rw [hqk, h2] at hl
    exact hl
  refine ⟨?_, ?_, ?_⟩
  · intro u hu
    rcases (mem_sync_updates _ _ _ _ _).mp hu with ⟨tk, _, _, task, hl, rfl⟩
    exact hkey (tk.key, task) (mem_of_dictLookup _ _ _ hl)
  · intro hc
    rcases (mem_sync_completes _ _ _ _ _).mp hc with ⟨q, hq, _, hqid⟩
    exact hkey q hq hqid.symm
  · intro hd
    rcases (mem_sync_deletes _ _ _ _ _).mp hd with ⟨q, hq, _, _, hqid⟩
    exact hkey q hq hqid.symm

/-- Witness for C10: two tasks both parsing to key "X"; the later one ("t2")
is the one retained in the map, and the shadowed earlier one ("t1") appears
in no operation list (here "t2" is completed, "t1" is untouched). -/
theorem C10_witness :
    (([({ id := "t1", content := "X: a", due_date := none, priority := 4,
          description := "" } : TodoTask),
        { id := "t2", content := "X: b", due_date := none, priority := 4,
          description := "" }].map (fun t => t.id)).Nodup) ∧
    dictLookup (buildTaskMap
        [{ id := "t1", content := "X: a", due_date := none, priority := 4,
           description := "" },
         { id := "t2", content := "X: b", due_date := none, priority := 4,
           description := "" }]) "X" =
      some { id := "t2", content := "X: b", due_date := none, priority := 4,
             description := "" } ∧
    ("t1" ∉ (sync_to_todoist "https://jira.example.com" "7" []
        [{ id := "t1", content := "X: a", due_date := none, priority := 4,
           description := "" },
         { id := "t2", content := "X: b", due_date := none, priority := 4,
           description := "" }]).completes) ∧
    ("t1" ∉ (sync_to_todoist "https://jira.example.com" "7" []
        [{ id := "t1", content := "X: a", due_date := none, priority := 4,
           description := "" },
         { id := "t2", content := "X: b", due_date := none, priority := 4,
           description := "" }]).deletes) :=
  ⟨by decide,
   ((C10_last_duplicate_wins "https://jira.example.com" "7" []
      [{ id := "t1", content := "X: a", due_date := none, priority := 4,
         description := "" },
       { id := "t2", content := "X: b", due_date := none, priority := 4,
         description := "" }] (by decide)).1 "X").trans (by decide),
   ((C10_last_duplicate_wins "https://jira.example.com" "7" []
      [{ id := "t1", content := "X: a", due_date := none, priority := 4,
         description := "" },
       { id := "t2", content := "X: b", due_date := none, priority := 4,
         description := "" }] (by decide)).2
      { id := "t1", content := "X: a", due_date := none, priority := 4,
        description := "" } (by decide) (by decide)).2.1,
   ((C10_last_duplicate_wins "https://jira.example.com" "7" []
      [{ id := "t1", content := "X: a", due_date := none, priority := 4,
         description := "" },
       { id := "t2", content := "X: b", due_date := none, priority := 4,
         description := "" }] (by decide)).2
      { id := "t1", content := "X: a", due_date := none, priority := 4,
        description := "" } (by decide) (by decide)).2.2⟩

/-- Keys of tickets producing add or update operations parse back to the
ticket key when ticket keys are colon-free. -/
lemma taskKey_mkUpdateOp_content (serverUrl : String) (tk : Ticket) (task : TodoTask)
    (h : ':' ∉ tk.key.data) :
    taskKey (mkUpdateOp serverUrl tk task).content = tk.key :=
  taskKey_task_content tk h

lemma taskKey_mkAddOp_content (serverUrl projectId : String) (tk : Ticket)
    (h : ':' ∉ tk.key.data) :
    taskKey (mkAddOp serverUrl projectId tk).content = tk.key :=
  taskKey_task_content tk h

/-- Claim C2: for a Blocked or Cancelled ticket (assuming distinct,
colon-free ticket keys — the data model's unique "PROJ-123"-style keys —
and distinct task ids), no add and no update operation is emitted for its
key, and the task tracked under that key (when one exists) receives exactly
one delete operation in the same pass. -/
theorem C2_blocked_or_cancelled (serverUrl projectId : String) (tks : List Ticket)
    (ts : List TodoTask)
    (hkeys : (tks.map (fun tk => tk.key)).Nodup)
    (hcolon : ∀ tk ∈ tks, ':' ∉ tk.key.data)
    (hids : (ts.map (fun t => t.id)).Nodup)
    (tk : Ticket) (htk : tk ∈ tks) (hb : isBlockedOrCancelled tk = true) :
    (∀ a ∈ (sync_to_todoist serverUrl projectId tks ts).adds,
        taskKey a.content ≠ tk.key) ∧
    (∀ u ∈ (sync_to_todoist serverUrl projectId tks ts).updates,
        taskKey u.content ≠ tk.key) ∧
    (∀ task, dictLookup (buildTaskMap ts) tk.key = some task →
      (sync_to_todoist serverUrl projectId tks ts).deletes.countP
        (fun i => i == task.id) = 1) := by
  refine ⟨?_, ?_, ?_⟩
  · intro a ha
    rcases (mem_sync_adds _ _ _ _ _).mp ha with ⟨tk', htk', hnb', _, rfl⟩
    rw [taskKey_mkAddOp_content _ _ _ (hcolon tk' htk')]
    intro he
    have : tk' = tk := List.inj_on_of_nodup_map hkeys htk' htk he
    rw [this, hb] at hnb'
    exact Bool.true_eq_false.mp hnb'
  · intro u hu
    rcases (mem_sync_updates _ _ _ _ _).mp hu with ⟨tk', htk', hnb', _, _, rfl⟩
    rw [taskKey_mkUpdateOp_content _ _ _ (hcolon tk' htk')]
    intro he
    have : tk' = tk := List.inj_on_of_nodup_map hkeys htk' htk he
    rw [this, hb] at hnb'
    exact Bool.true_eq_false.mp hnb'
  · intro task hl
    have hmem : (tk.key, task) ∈ buildTaskMap ts := mem_of_dictLookup _ _ _ hl
    rw [sync_deletes_def, countP_filterMap_list]
    apply countP_eq_one_of_unique _ _ (tk.key, task)
      (List.Nodup.of_map Prod.fst (nodup_keys_buildTaskMap ts)) hmem
    · have h1 : tk.key ∈ jiraTicketKeys tks := List.mem_map.mpr ⟨tk, htk, rfl⟩
      have h2 : tk.key ∈ blockedOrCancelledKeys tks :=
        (mem_blockedOrCancelledKeys tks tk.key).mpr ⟨tk, htk, hb, rfl⟩
      simp [deleteFor, h1, h2]
    · intro q hq hpred
      rcases optionPredD _ _ hpred with ⟨i, hdel, hi⟩
      rcases (deleteFor_eq_some _ _ _ _).mp hdel with ⟨_, _, rfl⟩
      exact entry_eq_of_id_eq ts hids q (tk.key, task) hq hmem (by simpa using hi)

/-- Witness for C2: a Blocked ticket "OPS-1" with a tracked task — exactly
one delete for the task's id. -/
theorem C2_witness :
    ((([({ key := "OPS-1", summary := "Fix disk", due_date := none,
           priority := some "Critical", status := some "Blocked",
           issuetype := none } : Ticket)].map (fun tk => tk.key)).Nodup) ∧
      (([({ id := "t1", content := "OPS-1: Fix disk", due_date := none, priority := 1,
            description := "" } : TodoTask)].map (fun t => t.id)).Nodup) ∧
      dictLookup (buildTaskMap
          [{ id := "t1", content := "OPS-1: Fix disk", due_date := none, priority := 1,
             description := "" }]) "OPS-1" =
        some { id := "t1", content := "OPS-1: Fix disk", due_date := none, priority := 1,
               description := "" }) ∧
    (sync_to_todoist "https://jira.example.com" "7"
        [{ key := "OPS-1", summary := "Fix disk", due_date := none,
           priority := some "Critical", status := some "Blocked", issuetype := none }]
        [{ id := "t1", content := "OPS-1: Fix disk", due_date := none, priority := 1,
           description := "" }]).deletes.countP (fun i => i == "t1") = 1 :=
  ⟨⟨by decide, by decide, by decide⟩,
   (C2_blocked_or_cancelled "https://jira.example.com" "7"
      [{ key := "OPS-1", summary := "Fix disk", due_date := none,
         priority := some "Critical", status := some "Blocked", issuetype := none }]
      [{ id := "t1", content := "OPS-1: Fix disk", due_date := none, priority := 1,
         description := "" }] (by decide) (by decide) (by decide)
      { key := "OPS-1", summary := "Fix disk", due_date := none,
        priority := some "Critical", status := some "Blocked", issuetype := none }
      (by decide) (by decide)).2.2
     { id := "t1", content := "OPS-1: Fix disk", due_date := none, priority := 1,
       description := "" } (by decide)⟩

/-- Claim C3: for a ticket that is not Blocked/Cancelled (with distinct,
colon-free ticket keys): when its key is in the existing-task map, exactly
one update operation — carrying the mapped task's id and the recomputed
content, due date, priority and description — and no add is emitted; when
its key is absent, exactly one add operation and no update is emitted. -/
theorem C3_update_or_add (serverUrl projectId : String) (tks : List Ticket)
    (ts : List TodoTask)
    (hkeys : (tks.map (fun tk => tk.key)).Nodup)
    (hcolon : ∀ tk ∈ tks, ':' ∉ tk.key.data)
    (tk : Ticket) (htk : tk ∈ tks) (hnb : isBlockedOrCancelled tk = false) :
    (∀ task, dictLookup (buildTaskMap ts) tk.key = some task →
      ((sync_to_todoist serverUrl projectId tks ts).updates.countP
          (fun u => u == mkUpdateOp serverUrl tk task) = 1) ∧
      (∀ a ∈ (sync_to_todoist serverUrl projectId tks ts).adds,
          taskKey a.content ≠ tk.key)) ∧
    (dictLookup (buildTaskMap ts) tk.key = none →
      ((sync_to_todoist serverUrl projectId tks ts).adds.countP
          (fun a => a == mkAddOp serverUrl projectId tk) = 1) ∧
      (∀ u ∈ (sync_to_todoist serverUrl projectId tks ts).updates,
          taskKey u.content ≠ tk.key)) := by
  have htks : tks.Nodup := List.Nodup.of_map _ hkeys
  constructor
  · intro task hl
    constructor
    · rw [sync_updates_def, countP_filterMap_list]
      apply countP_eq_one_of_unique _ _ tk htks htk
      · simp [updateFor, hnb, hl]
      · intro tk' htk' hpred
        rcases optionPredD _ _ hpred with ⟨u, hup, hu⟩
        rcases (updateFor_eq_some _ _ _ _).mp hup with ⟨_, task', hl', rfl⟩
        have heq : mkUpdateOp serverUrl tk' task' = mkUpdateOp serverUrl tk task := by
          simpa using hu
        have hc : (mkUpdateOp serverUrl tk' task').content =
            (mkUpdateOp serverUrl tk task).content := by rw [heq]
        have hk : tk'.key = tk.key := by
          have h1 := taskKey_mkUpdateOp_content serverUrl tk' task' (hcolon tk' htk')
          have h2 := taskKey_mkUpdateOp_content serverUrl tk task (hcolon tk htk)
          rw [← h1, ← h2, hc]
        exact List.inj_on_of_nodup_map hkeys htk' htk hk
    · intro a ha
      rcases (mem_sync_adds _ _ _ _ _).mp ha with ⟨tk', htk', _, hnone, rfl⟩
      rw [taskKey_mkAddOp_content _ _ _ (hcolon tk' htk')]
      intro he
      rw [he, hl] at hnone
      exact Option.some_ne_none task hnone
  · intro hnone
    constructor
    · rw [sync_adds_def, countP_filterMap_list]
      apply countP_eq_one_of_unique _ _ tk htks htk
      · simp [addFor, hnb, hnone]
      · intro tk' htk' hpred
        rcases optionPredD _ _ hpred with ⟨a, hadd, ha⟩
        rcases (addFor_eq_some _ _ _ _ _).mp hadd with ⟨_, _, rfl⟩
        have heq : mkAddOp serverUrl projectId tk' = mkAddOp serverUrl projectId tk := by
          simpa using ha
        have hc : (mkAddOp serverUrl projectId tk').content =
            (mkAddOp serverUrl projectId tk).content := by rw [heq]
        have hk : tk'.key = tk.key := by
          have h1 := taskKey_mkAddOp_content serverUrl projectId tk' (hcolon tk' htk')
          have h2 := taskKey_mkAddOp_content serverUrl projectId tk (hcolon tk htk)
          rw [← h1, ← h2, hc]
        exact List.inj_on_of_nodup_map hkeys htk' htk hk
    · intro u hu
      rcases (mem_sync_updates _ _ _ _ _).mp hu with ⟨tk', htk', _, task', hl', rfl⟩
      rw [taskKey_mkUpdateOp_content _ _ _ (hcolon tk' htk')]
      intro he
      rw [he, hnone] at hl'
      exact Option.some_ne_none task' hl'.symm

/-- Witness for C3: open ticket "OPS-1" with no existing task — exactly one
add; and with an existing task — exactly one update. -/
theorem C3_witness :
    ((sync_to_todoist "https://jira.example.com" "7"
        [{ key := "OPS-1", summary := "Fix disk", due_date := none,
           priority := some "Critical", status := some "Open", issuetype := none }]
        []).adds.countP
      (fun a => a == mkAddOp "https://jira.example.com" "7"
          { key := "OPS-1", summary := "Fix disk", due_date := none,
            priority := some "Critical", status := some "Open",
            issuetype := none }) = 1) ∧
    ((sync_to_todoist "https://jira.example.com" "7"
        [{ key := "OPS-1", summary := "Fix disk", due_date := none,
           priority := some "Critical", status := some "Open", issuetype := none }]
        [{ id := "t1", content := "OPS-1: Fix disk", due_date := none, priority := 1,
           description := "" }]).updates.countP
      (fun u => u == mkUpdateOp "https://jira.example.com"
          { key := "OPS-1", summary := "Fix disk", due_date := none,
            priority := some "Critical", status := some "Open", issuetype := none }
          { id := "t1", content := "OPS-1: Fix disk", due_date := none, priority := 1,
            description := "" }) = 1) :=
  ⟨((C3_update_or_add "https://jira.example.com" "7"
      [{ key := "OPS-1", summary := "Fix disk", due_date := none,
         priority := some "Critical", status := some "Open", issuetype := none }]
      [] (by decide) (by decide)
      { key := "OPS-1", summary := "Fix disk", due_date := none,
        priority := some "Critical", status := some "Open", issuetype := none }
      (by decide) (by decide)).2 (by decide)).1,
   ((C3_update_or_add "https://jira.example.com" "7"
      [{ key := "OPS-1", summary := "Fix disk", due_date := none,
         priority := some "Critical", status := some "Open", issuetype := none }]
      [{ id := "t1", content := "OPS-1: Fix disk", due_date := none, priority := 1,
         description := "" }] (by decide) (by decide)
      { key := "OPS-1", summary := "Fix disk", due_date := none,
        priority := some "Critical", status := some "Open", issuetype := none }
      (by decide) (by decide)).1
     { id := "t1", content := "OPS-1: Fix disk", due_date := none, priority := 1,
       description := "" } (by decide)).1⟩

/-- Claim C8: the four operation lists are pairwise disjoint per subject
(assuming distinct, colon-free ticket keys and distinct task ids): a task id
targeted by an update is never completed or deleted, a completed id is never
deleted, and an added content key corresponds to no updated ticket key and
to no existing task's parsed key at all. -/
theorem C8_disjoint_op_lists (serverUrl projectId : String) (tks : List Ticket)
    (ts : List TodoTask)
    (hkeys : (tks.map (fun tk => tk.key)).Nodup)
    (hcolon : ∀ tk ∈ tks, ':' ∉ tk.key.data)
    (hids : (ts.map (fun t => t.id)).Nodup) :
    (∀ u ∈ (sync_to_todoist serverUrl projectId tks ts).updates,
      u.task_id ∉ (sync_to_todoist serverUrl projectId tks ts).completes ∧
      u.task_id ∉ (sync_to_todoist serverUrl projectId tks ts).deletes) ∧
    (∀ i ∈ (sync_to_todoist serverUrl projectId tks ts).completes,
      i ∉ (sync_to_todoist serverUrl projectId tks ts).deletes) ∧
    (∀ a ∈ (sync_to_todoist serverUrl projectId tks ts).adds,
      (∀ u ∈ (sync_to_todoist serverUrl projectId tks ts).updates,
        taskKey a.content ≠ taskKey u.content) ∧
      (∀ t ∈ ts, taskKey a.content ≠ taskKey t.content)) := by
  refine ⟨?_, ?_, ?_⟩
  · intro u hu
    rcases (mem_sync_updates _ _ _ _ _).mp hu with ⟨tk, htk, hnb, task, hl, rfl⟩
    have hmem : (tk.key, task) ∈ buildTaskMap ts := mem_of_dictLookup _ _ _ hl
    constructor
    · intro hc
      rcases (mem_sync_completes _ _ _ _ _).mp hc with ⟨q, hq, hqk, hqid⟩
      have : q = (tk.key, task) := entry_eq_of_id_eq ts hids q (tk.key, task) hq hmem
        (by exact hqid.symm)
      rw [this] at hqk
      exact hqk (List.mem_map.mpr ⟨tk, htk, rfl⟩)
    · intro hd
      rcases (mem_sync_deletes _ _ _ _ _).mp hd with ⟨q, hq, _, hqb, hqid⟩
      have heq : q = (tk.key, task) := entry_eq_of_id_eq ts hids q (tk.key, task) hq hmem
        (by exact hqid.symm)
      rw [heq] at hqb
      rcases (mem_blockedOrCancelledKeys tks tk.key).mp hqb with ⟨tk', htk', hb', hk'⟩
      have : tk' = tk := List.inj_on_of_nodup_map hkeys htk' htk hk'
      rw [this, hnb] at hb'
      exact Bool.false_eq_true.mp hb'
  · intro i hc hd
    rcases (mem_sync_completes _ _ _ _ _).mp hc with ⟨q, hq, hqk, hqid⟩
    rcases (mem_sync_deletes _ _ _ _ _).mp hd with ⟨q', hq', hqk', _, hqid'⟩
    have : q = q' := entry_eq_of_id_eq ts hids q q' hq hq'
      (by rw [← hqid, ← hqid'])
    rw [this] at hqk
    exact hqk hqk'
  · intro a ha
    rcases (mem_sync_adds _ _ _ _ _).mp ha with ⟨tk, htk, _, hnone, rfl⟩
    rw [taskKey_mkAddOp_content _ _ _ (hcolon tk htk)]
    constructor
    · intro u hu
      rcases (mem_sync_updates _ _ _ _ _).mp hu with ⟨tk', htk', _, task', hl', rfl⟩
      rw [taskKey_mkUpdateOp_content _ _ _ (hcolon tk' htk')]
      intro he
      rw [he, hl'] at hnone
      exact Option.some_ne_none task' hnone
    · intro t ht he
      have : tk.key ∈ (buildTaskMap ts).map Prod.fst :=
        (mem_keys_buildTaskMap ts tk.key).mpr ⟨t, ht, he.symm⟩
      exact (dictLookup_eq_none_iff _ _).mp hnone this

/-- Witness for C8: one open ticket with a tracked task plus an unrelated
stale task — the update's target id is in neither the complete nor the
delete list. -/
theorem C8_witness :
    ((sync_to_todoist "https://jira.example.com" "7"
        [{ key := "OPS-1", summary := "Fix disk", due_date := none,
           priority := some "Critical", status := some "Open", issuetype := none }]
        [{ id := "t1", content := "OPS-1: Fix disk", due_date := none, priority := 1,
           description := "" },
         { id := "t2", content := "OPS-9: stale", due_date := none, priority := 4,
           description := "" }]).updates =
      [mkUpdateOp "https://jira.example.com"
        { key := "OPS-1", summary := "Fix disk", due_date := none,
          priority := some "Critical", status := some "Open", issuetype := none }
        { id := "t1", content := "OPS-1: Fix disk", due_date := none, priority := 1,
          description := "" }]) ∧
    ("t1" ∉ (sync_to_todoist "https://jira.example.com" "7"
        [{ key := "OPS-1", summary := "Fix disk", due_date := none,
           priority := some "Critical", status := some "Open", issuetype := none }]
        [{ id := "t1", content := "OPS-1: Fix disk", due_date := none, priority := 1,
           description := "" },
         { id := "t2", content := "OPS-9: stale", due_date := none, priority := 4,
           description := "" }]).completes) ∧
    ("t1" ∉ (sync_to_todoist "https://jira.example.com" "7"
        [{ key := "OPS-1", summary := "Fix disk", due_date := none,
           priority := some "Critical", status := some "Open", issuetype := none }]
        [{ id := "t1", content := "OPS-1: Fix disk", due_date := none, priority := 1,
           description := "" },
         { id := "t2", content := "OPS-9: stale", due_date := none, priority := 4,
           description := "" }]).deletes) :=
  ⟨by decide,
   ((C8_disjoint_op_lists "https://jira.example.com" "7"
      [{ key := "OPS-1", summary := "Fix disk", due_date := none,
         priority := some "Critical", status := some "Open", issuetype := none }]
      [{ id := "t1", content := "OPS-1: Fix disk", due_date := none, priority := 1,
         description := "" },
       { id := "t2", content := "OPS-9: stale", due_date := none, priority := 4,
         description := "" }] (by decide) (by decide) (by decide)).1
     (mkUpdateOp "https://jira.example.com"
       { key := "OPS-1", summary := "Fix disk", due_date := none,
         priority := some "Critical", status := some "Open", issuetype := none }
       { id := "t1", content := "OPS-1: Fix disk", due_date := none, priority := 1,
         description := "" }) (by decide)).1,
   ((C8_disjoint_op_lists "https://jira.example.com" "7"
      [{ key := "OPS-1", summary := "Fix disk", due_date := none,
         priority := some "Critical", status := some "Open", issuetype := none }]
      [{ id := "t1", content := "OPS-1: Fix disk", due_date := none, priority := 1,
         description := "" },
       { id := "t2", content := "OPS-9: stale", due_date := none, priority := 4,
         description := "" }] (by decide) (by decide) (by decide)).1
     (mkUpdateOp "https://jira.example.com"
       { key := "OPS-1", summary := "Fix disk", due_date := none,
         priority := some "Critical", status := some "Open", issuetype := none }
       { id := "t1", content := "OPS-1: Fix disk", due_date := none, priority := 1,
         description := "" }) (by decide)).2⟩

/-- Claim C6 is false on `src/main.py`: the description attached to an add
(or update) operation is the bare ticket link of line 132 — no two newlines
and no ticket description are appended (this variant does not even fetch
the ticket description; see the field list on line 62). -/
theorem C6_counterexample :
    (sync_to_todoist "https://jira.example.com" "7"
        [{ key := "OPS-1", summary := "Fix disk", due_date := none,
           priority := some "Critical", status := some "Open", issuetype := none }]
        []).adds =
      [mkAddOp "https://jira.example.com" "7"
        { key := "OPS-1", summary := "Fix disk", due_date := none,
          priority := some "Critical", status := some "Open", issuetype := none }] ∧
    (mkAddOp "https://jira.example.com" "7"
        { key := "OPS-1", summary := "Fix disk", due_date := none,
          priority := some "Critical", status := some "Open",
          issuetype := none }).description ≠
      "https://jira.example.com" ++ "/browse/" ++ "OPS-1" ++ "\n\n" ++ "" := by
  constructor
  · decide
  · decide

/-- Claim C6 as amended: the description of every emitted add and update
operation is exactly the tracker base URL, `"/browse/"` and the ticket key —
with nothing appended after the key (assuming colon-free ticket keys, the
key is recoverable from the operation's content). -/
theorem C6_description_is_link (serverUrl projectId : String) (tks : List Ticket)
    (ts : List TodoTask) (hcolon : ∀ tk ∈ tks, ':' ∉ tk.key.data) :
    (∀ u ∈ (sync_to_todoist serverUrl projectId tks ts).updates,
      u.description = serverUrl ++ "/browse/" ++ taskKey u.content) ∧
    (∀ a ∈ (sync_to_todoist serverUrl projectId tks ts).adds,
      a.description = serverUrl ++ "/browse/" ++ taskKey a.content) := by
  constructor
  · intro u hu
    rcases (mem_sync_updates _ _ _ _ _).mp hu with ⟨tk, htk, _, task, _, rfl⟩
    rw [taskKey_mkUpdateOp_content _ _ _ (hcolon tk htk)]
    rfl
  · intro a ha
    rcases (mem_sync_adds _ _ _ _ _).mp ha with ⟨tk, htk, _, _, rfl⟩
    rw [taskKey_mkAddOp_content _ _ _ (hcolon tk htk)]
    rfl

/-- Witness for C6 as amended, at the counterexample's input. -/
theorem C6_witness :
    (mkAddOp "https://jira.example.com" "7"
        { key := "OPS-1", summary := "Fix disk", due_date := none,
          priority := some "Critical", status := some "Open",
          issuetype := none }).description =
      "https://jira.example.com" ++ "/browse/" ++
        taskKey (mkAddOp "https://jira.example.com" "7"
          { key := "OPS-1", summary := "Fix disk", due_date := none,
            priority := some "Critical", status := some "Open",
            issuetype := none }).content :=
  (C6_description_is_link "https://jira.example.com" "7"
      [{ key := "OPS-1", summary := "Fix disk", due_date := none,
         priority := some "Critical", status := some "Open", issuetype := none }]
      [] (by decide)).2
    (mkAddOp "https://jira.example.com" "7"
      { key := "OPS-1", summary := "Fix disk", due_date := none,
        priority := some "Critical", status := some "Open", issuetype := none })
    (by decide)

/-! Model of the Jira read traffic of one reconciliation pass, for the
query-count observation: `run_service` (line 215) calls
`get_open_jira_tickets`, which itself calls `get_green_resolution_statuses`
(line 49) before its search query, and then `sync_to_todoist`, which calls
`get_green_resolution_statuses` again on line 116 (and binds its result to a
variable that is never read afterwards). -/

/-- The kinds of Jira read requests a pass can issue. -/
inductive JiraCall
  | statusCatalog
  | issueSearch
deriving DecidableEq, Repr

/-- `get_green_resolution_statuses` (lines 30-45 of `src/main.py`) issues one
GET of the status catalog. -/
def get_green_resolution_statuses_calls : List JiraCall := [JiraCall.statusCatalog]

/-- `get_open_jira_tickets` (lines 47-81): one status-catalog query via
`get_green_resolution_statuses` (line 49), then one issue search (line 64). -/
def get_open_jira_tickets_calls : List JiraCall :=
  get_green_resolution_statuses_calls ++ [JiraCall.issueSearch]

/-- The Jira calls of `sync_to_todoist` (line 116): one more
status-catalog query, whose result is never used. -/
def sync_to_todoist_jira_calls : List JiraCall := get_green_resolution_statuses_calls

/-- One reconciliation pass as driven by `run_service` (lines 215-219):
`get_open_jira_tickets` followed by `sync_to_todoist`. -/
def reconciliation_pass_calls : List JiraCall :=
  get_open_jira_tickets_calls ++ sync_to_todoist_jira_calls

/-- Claim C7 is false on `src/main.py`: one pass queries the status catalog
twice, not once — once inside `get_open_jira_tickets` and once again inside
`sync_to_todoist`. -/
theorem C7_counterexample :
    ¬ (reconciliation_pass_calls.countP (fun c => c == JiraCall.statusCatalog) = 1) := by
  decide

/-- Claim C7 as amended: a single reconciliation pass queries the
done-category status catalog exactly twice — once in the ticket fetch and
once more in `sync_to_todoist` (whose result is unused: the reconciliation
outcome does not depend on it) — not once with a cached value. -/
theorem C7_status_catalog_queried_twice :
    reconciliation_pass_calls.countP (fun c => c == JiraCall.statusCatalog) = 2 ∧
    get_open_jira_tickets_calls.countP (fun c => c == JiraCall.statusCatalog) = 1 ∧
    sync_to_todoist_jira_calls.countP (fun c => c == JiraCall.statusCatalog) = 1 := by
  refine ⟨by decide, by decide, by decide⟩

/-- The outcome of the body of one `run_service` loop iteration
(lines 214-221 of `src/main.py`): either the fetch-and-sync succeeded, or
some exception was raised inside it. -/
inductive PassOutcome
  | ok
  | error (msg : String)
deriving DecidableEq, Repr

/-- What one `run_service` loop iteration does after its body finishes
(lines 212-223 of `src/main.py`). -/
structure ServiceIteration where
  propagates : Bool
  logged : Option String
  delaySeconds : Nat
deriving DecidableEq, Repr

/-- One iteration of the `while True` loop of `run_service`
(lines 212-223 of `src/main.py`): the `try`/`except Exception` catches any
exception raised by `get_open_jira_tickets` or `sync_to_todoist` and logs
it; in both cases the iteration falls through to `asyncio.sleep(300)` and
the loop continues. -/
def run_service_iteration : PassOutcome → ServiceIteration
  | PassOutcome.ok =>
    { propagates := false, logged := none, delaySeconds := 300 }
  | PassOutcome.error msg =>
    { propagates := false, logged := some msg, delaySeconds := 300 }

/-- Claim C9: in service mode every exception raised inside a single pass is
caught and logged, no per-pass failure escapes the loop, and the next pass
follows after the fixed 300-second delay. -/
theorem C9_service_loop_survives_failures :
    ∀ outcome : PassOutcome,
      (run_service_iteration outcome).propagates = false ∧
      (run_service_iteration outcome).delaySeconds = 300 ∧
      (∀ msg, (run_service_iteration (PassOutcome.error msg)).logged = some msg) := by
  intro outcome
  cases outcome <;> exact ⟨rfl, rfl, fun _ => rfl⟩

/-! Model of applying one pass's operations to the to-do service, for the
idempotence observation.  The application itself happens in the external
Todoist service (lines 172-208 of `src/main.py` only fire the requests). -/

/-- Modelled from the spec: the field change performed by `update_task`
(§4.2) — content, due date, priority and description are overwritten, the id
is unchanged. -/
def applyUpdateFields (u : UpdateOp) (t : TodoTask) : TodoTask :=
  { t with
    content := u.content
    due_date := u.due_date
    priority := u.priority
    description := u.description }

/-- Modelled from the spec: an update targets the task with the given id and
leaves every other task alone. -/
def applyUpdate (u : UpdateOp) (t : TodoTask) : TodoTask :=
  if t.id = u.task_id then applyUpdateFields u t else t

/-- Modelled from the spec (§4.2): the to-do service state after one pass's
operation lists are applied — updates mutate fields in place, completed
(`complete_task` marks done, so the task leaves the active listing returned
by `list_tasks`) and deleted tasks disappear, and each added task is created
with a fresh service-assigned id (supplied here as `newIds`). -/
def applyOps (ops : SyncOps) (newIds : List String) (ts : List TodoTask) : List TodoTask :=
  ((ts.map (fun t => ops.updates.foldl (fun acc u => applyUpdate u acc) t)).filter
      (fun t => decide (t.id ∉ ops.completes ∧ t.id ∉ ops.deletes))) ++
    ((ops.adds.zip newIds).map (fun p =>
      { id := p.2
        content := p.1.content
        due_date := p.1.due_date
        priority := p.1.priority
        description := p.1.description }))

/-- Claim C5 is false on `src/main.py`: with two existing tasks both parsing
to the same key "X" (which matches no open ticket), the first pass completes
only the later task ("t2", the one retained in the map); after applying the
operations the second pass re-parses the surviving earlier task, maps it
under "X" again and emits a fresh complete operation ("t1") — so the second
pass is not complete-free. -/
theorem C5_counterexample :
    (sync_to_todoist "https://jira.example.com" "7" []
        (applyOps
          (sync_to_todoist "https://jira.example.com" "7" []
            [{ id := "t1", content := "X: a", due_date := none, priority := 4,
               description := "" },
             { id := "t2", content := "X: b", due_date := none, priority := 4,
               description := "" }])
          []
          [{ id := "t1", content := "X: a", due_date := none, priority := 4,
             description := "" },
           { id := "t2", content := "X: b", due_date := none, priority := 4,
             description := "" }])).completes = ["t1"] ∧
    (sync_to_todoist "https://jira.example.com" "7" []
        [{ id := "t1", content := "X: a", due_date := none, priority := 4,
           description := "" },
         { id := "t2", content := "X: b", due_date := none, priority := 4,
           description := "" }]).completes = ["t2"] := by
  constructor
  · decide
  · decide

lemma applyUpdate_id (u : UpdateOp) (t : TodoTask) : (applyUpdate u t).id = t.id := by
  unfold applyUpdate
  split <;> rfl

lemma foldl_applyUpdate_id (us : List UpdateOp) (t : TodoTask) :
    (us.foldl (fun acc u => applyUpdate u acc) t).id = t.id := by
  induction us generalizing t with
  | nil => rfl
  | cons u us ih => rw [List.foldl_cons, ih, applyUpdate_id]

lemma foldl_applyUpdate_fixed (us : List UpdateOp) (t : TodoTask)
    (h : ∀ u ∈ us, applyUpdate u t = t) :
    us.foldl (fun acc u => applyUpdate u acc) t = t := by
  induction us with
  | nil => rfl
  | cons u us ih =>
    rw [List.foldl_cons, h u (List.mem_cons_self u us)]
    exact ih (fun u' hu' => h u' (List.mem_cons_of_mem u hu'))

lemma foldl_applyUpdate_unique (us : List UpdateOp) (t : TodoTask) (u0 : UpdateOp)
    (h0 : u0 ∈ us) (hid : u0.task_id = t.id)
    (huniq : ∀ u ∈ us, u.task_id = t.id → u = u0) :
    us.foldl (fun acc u => applyUpdate u acc) t = applyUpdateFields u0 t := by
  induction us generalizing t with
  | nil => simp at h0
  | cons u us ih =>
    rw [List.foldl_cons]
    by_cases hu : u.task_id = t.id
    · have : u = u0 := huniq u (List.mem_cons_self u us) hu
      subst this
      rw [applyUpdate, if_pos hu.symm]
      apply foldl_applyUpdate_fixed
      intro u' hu'
      by_cases hu'' : u'.task_id = (applyUpdateFields u t).id
      · have : u' = u := huniq u' (List.mem_cons_of_mem u hu') (by simpa using hu'')
        subst this
        rw [applyUpdate, if_pos hu''.symm]
        rfl
      · rw [applyUpdate, if_neg (fun he => hu'' he.symm)]
    · rw [applyUpdate, if_neg (fun he => hu he.symm)]
      have h0' : u0 ∈ us := by
        rcases List.mem_cons.mp h0 with rfl | h
        · exact absurd hid hu
        · exact h
      exact ih t h0' hid (fun u' hu' he => huniq u' (List.mem_cons_of_mem u hu') he)

lemma filter_taskKey_eq_single (ts : List TodoTask)
    (hpre : (ts.map (fun t => taskKey t.content)).Nodup)
    (t : TodoTask) (ht : t ∈ ts) :
    ts.filter (fun x => taskKey x.content == taskKey t.content) = [t] := by
  induction ts with
  | nil => simp at ht
  | cons b l ih =>
    rcases List.mem_cons.mp ht with rfl | hmem
    · rw [List.filter_cons_of_pos (by simp)]
      have : l.filter (fun x => taskKey x.content == taskKey t.content) = [] := by
        rw [List.filter_eq_nil_iff]
        intro x hx hpx
        have hkx : taskKey x.content = taskKey t.content := by simpa using hpx
        rw [List.map_cons, List.nodup_cons] at hpre
        exact hpre.1 (hkx ▸ List.mem_map.mpr ⟨x, hx, rfl⟩)
      rw [this]
    · have hb : ¬ (taskKey b.content == taskKey t.content) = true := by
        simp only [beq_iff_eq]
        intro he
        rw [List.map_cons, List.nodup_cons] at hpre
        exact hpre.1 (he ▸ List.mem_map.mpr ⟨t, hmem, rfl⟩)
      rw [List.filter_cons, if_neg hb]
      rw [List.map_cons, List.nodup_cons] at hpre
      exact ih hpre.2 hmem

/-- With pairwise-distinct parsed keys, every task is its own key's map
entry. -/
lemma dictLookup_self_of_nodup (ts : List TodoTask)
    (hpre : (ts.map (fun t => taskKey t.content)).Nodup)
    (t : TodoTask) (ht : t ∈ ts) :
    dictLookup (buildTaskMap ts) (taskKey t.content) = some t := by
  rw [dictLookup_buildTaskMap, filter_taskKey_eq_single ts hpre t ht]
  rfl

lemma mem_buildTaskMap_self (ts : List TodoTask)
    (hpre : (ts.map (fun t => taskKey t.content)).Nodup)
    (t : TodoTask) (ht : t ∈ ts) :
    (taskKey t.content, t) ∈ buildTaskMap ts :=
  mem_of_dictLookup _ _ _ (dictLookup_self_of_nodup ts hpre t ht)

lemma exists_zip_partner {α β : Type} (l1 : List α) (l2 : List β)
    (h : l2.length = l1.length) (a : α) (ha : a ∈ l1) :
    ∃ b, (a, b) ∈ l1.zip l2 := by
  induction l1 generalizing l2 with
  | nil => simp at ha
  | cons x l1 ih =>
    cases l2 with
    | nil => simp at h
    | cons y l2 =>
      rcases List.mem_cons.mp ha with rfl | hmem
      · exact ⟨y, List.mem_cons_self _ _⟩
      · rcases ih l2 (by simpa using h) hmem with ⟨b, hb⟩
        exact ⟨b, List.mem_cons_of_mem _ hb⟩

/-- A task carries exactly the fields the script computes for a ticket
(lines 129-143 of `src/main.py`). -/
def TaskMatches (serverUrl : String) (tk : Ticket) (t : TodoTask) : Prop :=
  t.content = task_content tk ∧ t.due_date = tk.due_date ∧
  t.priority = ticket_priority tk ∧ t.description = task_description serverUrl tk

/-- The active to-do state mirrors the ticket list: every active task
realizes some non-Blocked/Cancelled ticket, and every non-Blocked/Cancelled
ticket has an active task parsing to its key. -/
def Mirrors (serverUrl : String) (tks : List Ticket) (ts : List TodoTask) : Prop :=
  (∀ t ∈ ts, ∃ tk ∈ tks, isBlockedOrCancelled tk = false ∧ TaskMatches serverUrl tk t) ∧
  (∀ tk ∈ tks, isBlockedOrCancelled tk = false →
    ∃ t ∈ ts, taskKey t.content = tk.key)

/-- On a mirrored state, a pass emits no adds, completes or deletes, and
every update is a no-op on the task it targets. -/
lemma sync_on_mirrors (serverUrl projectId : String) (tks : List Ticket)
    (ts : List TodoTask)
    (hkeys : (tks.map (fun tk => tk.key)).Nodup)
    (hcolon : ∀ tk ∈ tks, ':' ∉ tk.key.data)
    (hm : Mirrors serverUrl tks ts) :
    (sync_to_todoist serverUrl projectId tks ts).adds = [] ∧
    (sync_to_todoist serverUrl projectId tks ts).completes = [] ∧
    (sync_to_todoist serverUrl projectId tks ts).deletes = [] ∧
    (∀ u ∈ (sync_to_todoist serverUrl projectId tks ts).updates,
      ∃ t ∈ ts, t.id = u.task_id ∧ t.content = u.content ∧
        t.due_date = u.due_date ∧ t.priority = u.priority ∧
        t.description = u.description) := by
  have keyOf : ∀ q ∈ buildTaskMap ts,
      ∃ tk ∈ tks, isBlockedOrCancelled tk = false ∧ q.1 = tk.key := by
    intro q hq
    obtain ⟨hqm, hqk⟩ := mem_buildTaskMap ts q hq
    rcases hm.1 q.2 hqm with ⟨tk, htk, hnb, hmatch⟩
    refine ⟨tk, htk, hnb, ?_⟩
    rw [hqk, hmatch.1, taskKey_task_content tk (hcolon tk htk)]
  refine ⟨?_, ?_, ?_, ?_⟩
  · rw [List.eq_nil_iff_forall_not_mem]
    intro a ha
    rcases (mem_sync_adds _ _ _ _ _).mp ha with ⟨tk, htk, hnb, hnone, rfl⟩
    rcases hm.2 tk htk hnb with ⟨t, ht, hkey⟩
    exact (dictLookup_eq_none_iff _ _).mp hnone
      ((mem_keys_buildTaskMap ts tk.key).mpr ⟨t, ht, hkey⟩)
  · rw [List.eq_nil_iff_forall_not_mem]
    intro i hi
    rcases (mem_sync_completes _ _ _ _ _).mp hi with ⟨q, hq, hqk, _⟩
    rcases keyOf q hq with ⟨tk, htk, _, hkey⟩
    exact hqk (hkey ▸ List.mem_map.mpr ⟨tk, htk, rfl⟩)
  · rw [List.eq_nil_iff_forall_not_mem]
    intro i hi
    rcases (mem_sync_deletes _ _ _ _ _).mp hi with ⟨q, hq, _, hqb, _⟩
    rcases keyOf q hq with ⟨tk, htk, hnb, hkey⟩
    rcases (mem_blockedOrCancelledKeys tks q.1).mp hqb with ⟨tk', htk', hb', hk'⟩
    have : tk' = tk := List.inj_on_of_nodup_map hkeys htk' htk (by rw [hk', hkey])
    rw [this, hnb] at hb'
    exact Bool.false_eq_true.mp hb'
  · intro u hu
    rcases (mem_sync_updates _ _ _ _ _).mp hu with ⟨tk, htk, hnb, task, hl, rfl⟩
    obtain ⟨hqm, hqk⟩ := mem_buildTaskMap ts (tk.key, task) (mem_of_dictLookup _ _ _ hl)
    rcases hm.1 task hqm with ⟨tk'', htk'', _, hmatch⟩
    have hqk' : tk.key = taskKey task.content := hqk
    have hks : tk.key = tk''.key := by
      rw [hqk', hmatch.1, taskKey_task_content tk'' (hcolon tk'' htk'')]
    have : tk'' = tk := List.inj_on_of_nodup_map hkeys htk'' htk hks.symm
    subst this
    exact ⟨task, hqm, rfl, hmatch.1, hmatch.2.1, hmatch.2.2.1, hmatch.2.2.2⟩

/-- After applying one pass's operations (with well-formed inputs: distinct
colon-free ticket keys, distinct task ids, distinct parsed task keys, one
fresh id per add), the active task list mirrors the ticket list. -/
lemma applyOps_mirrors (serverUrl projectId : String) (tks : List Ticket)
    (ts0 : List TodoTask) (newIds : List String)
    (hkeys : (tks.map (fun tk => tk.key)).Nodup)
    (hcolon : ∀ tk ∈ tks, ':' ∉ tk.key.data)
    (hids : (ts0.map (fun t => t.id)).Nodup)
    (hpre : (ts0.map (fun t => taskKey t.content)).Nodup)
    (hlen : newIds.length = (sync_to_todoist serverUrl projectId tks ts0).adds.length) :
    Mirrors serverUrl tks
      (applyOps (sync_to_todoist serverUrl projectId tks ts0) newIds ts0) := by
  have hmem_map : ∀ t0 ∈ ts0, (taskKey t0.content, t0) ∈ buildTaskMap ts0 :=
    fun t0 h => mem_buildTaskMap_self ts0 hpre t0 h
  have hfold : ∀ t0 ∈ ts0, ∀ tk ∈ tks, isBlockedOrCancelled tk = false →
      tk.key = taskKey t0.content →
      (sync_to_todoist serverUrl projectId tks ts0).updates.foldl
          (fun acc u => applyUpdate u acc) t0 =
        applyUpdateFields (mkUpdateOp serverUrl tk t0) t0 := by
    intro t0 ht0 tk htk hnb hkey
    apply foldl_applyUpdate_unique
    · apply (mem_sync_updates _ _ _ _ _).mpr
      refine ⟨tk, htk, hnb, t0, ?_, rfl⟩
      rw [hkey]
      exact dictLookup_self_of_nodup ts0 hpre t0 ht0
    · rfl
    · intro u hu hid
      rcases (mem_sync_updates _ _ _ _ _).mp hu with ⟨tk', htk', _, task', hl', rfl⟩
      obtain ⟨hm', hk'⟩ :=
        mem_buildTaskMap ts0 (tk'.key, task') (mem_of_dictLookup _ _ _ hl')
      have hteq : task' = t0 := List.inj_on_of_nodup_map hids hm' ht0 hid
      have hk'' : tk'.key = taskKey task'.content := hk'
      have hkk : tk'.key = tk.key := by rw [hk'', hteq, ← hkey]
      have : tk' = tk := List.inj_on_of_nodup_map hkeys htk' htk hkk
      rw [this, hteq]
  have hcompletes_not : ∀ t0 ∈ ts0, taskKey t0.content ∈ jiraTicketKeys tks →
      t0.id ∉ (sync_to_todoist serverUrl projectId tks ts0).completes := by
    intro t0 ht0 hin hc
    rcases (mem_sync_completes _ _ _ _ _).mp hc with ⟨q, hq, hqk, hqid⟩
    have : q = (taskKey t0.content, t0) :=
      entry_eq_of_id_eq ts0 hids q (taskKey t0.content, t0) hq (hmem_map t0 ht0)
        hqid.symm
    rw [this] at hqk
    exact hqk hin
  have hdeletes_not : ∀ t0 ∈ ts0, taskKey t0.content ∉ blockedOrCancelledKeys tks →
      t0.id ∉ (sync_to_todoist serverUrl projectId tks ts0).deletes := by
    intro t0 ht0 hnb hd
    rcases (mem_sync_deletes _ _ _ _ _).mp hd with ⟨q, hq, _, hqb, hqid⟩
    have : q = (taskKey t0.content, t0) :=
      entry_eq_of_id_eq ts0 hids q (taskKey t0.content, t0) hq (hmem_map t0 ht0)
        hqid.symm
    rw [this] at hqb
    exact hnb hqb
  constructor
  · intro t ht
    rcases List.mem_append.mp ht with hS | hA
    · rcases List.mem_filter.mp hS with ⟨hmap, hkeep⟩
      rcases List.mem_map.mp hmap with ⟨t0, ht0, rfl⟩
      have hkeep' : t0.id ∉ (sync_to_todoist serverUrl projectId tks ts0).completes ∧
          t0.id ∉ (sync_to_todoist serverUrl projectId tks ts0).deletes := by
        have := of_decide_eq_true hkeep
        rwa [foldl_applyUpdate_id] at this
      by_cases hin : taskKey t0.content ∈ jiraTicketKeys tks
      · rcases List.mem_map.mp hin with ⟨tk, htk, hkey⟩
        have hnb : isBlockedOrCancelled tk = false := by
          rcases Bool.eq_false_or_eq_true (isBlockedOrCancelled tk) with h | h
          · exfalso
            apply hkeep'.2
            apply (mem_sync_deletes _ _ _ _ _).mpr
            exact ⟨(taskKey t0.content, t0), hmem_map t0 ht0, hin,
              (mem_blockedOrCancelledKeys tks (taskKey t0.content)).mpr
                ⟨tk, htk, h, hkey⟩, rfl⟩
          · exact h
        refine ⟨tk, htk, hnb, ?_⟩
        rw [hfold t0 ht0 tk htk hnb hkey]
        exact ⟨rfl, rfl, rfl, rfl⟩
      · exfalso
        apply hkeep'.1
        apply (mem_sync_completes _ _ _ _ _).mpr
        exact ⟨(taskKey t0.content, t0), hmem_map t0 ht0, hin, rfl⟩
    · rcases List.mem_map.mp hA with ⟨p, hp, rfl⟩
      have hpa : p.1 ∈ (sync_to_todoist serverUrl projectId tks ts0).adds :=
        (List.of_mem_zip hp).1
      rcases (mem_sync_adds _ _ _ _ _).mp hpa with ⟨tk, htk, hnb, _, hpeq⟩
      refine ⟨tk, htk, hnb, ?_⟩
      rw [hpeq]
      exact ⟨rfl, rfl, rfl, rfl⟩
  · intro tk htk hnb
    cases hl : dictLookup (buildTaskMap ts0) tk.key with
    | some task =>
      obtain ⟨htask, hk⟩ :=
        mem_buildTaskMap ts0 (tk.key, task) (mem_of_dictLookup _ _ _ hl)
      have hk' : tk.key = taskKey task.content := hk
      have hkeep : task.id ∉ (sync_to_todoist serverUrl projectId tks ts0).completes ∧
          task.id ∉ (sync_to_todoist serverUrl projectId tks ts0).deletes := by
        constructor
        · apply hcompletes_not task htask
          rw [← hk']
          exact List.mem_map.mpr ⟨tk, htk, rfl⟩
        · apply hdeletes_not task htask
          rw [← hk']
          intro hbk
          rcases (mem_blockedOrCancelledKeys tks tk.key).mp hbk with ⟨tk', htk', hb', hkk⟩
          have : tk' = tk := List.inj_on_of_nodup_map hkeys htk' htk hkk
          rw [this, hnb] at hb'
          exact Bool.false_eq_true.mp hb'
      refine ⟨(sync_to_todoist serverUrl projectId tks ts0).updates.foldl
          (fun acc u => applyUpdate u acc) task, ?_, ?_⟩
      · apply List.mem_append_left
        apply List.mem_filter.mpr
        refine ⟨List.mem_map.mpr ⟨task, htask, rfl⟩, ?_⟩
        apply decide_eq_true
        rw [foldl_applyUpdate_id]
        exact hkeep
      · rw [hfold task htask tk htk hnb hk']
        have : (applyUpdateFields (mkUpdateOp serverUrl tk task) task).content =
            task_content tk := rfl
        rw [this]
        exact taskKey_task_content tk (hcolon tk htk)
    | none =>
      have ha : mkAddOp serverUrl projectId tk ∈
          (sync_to_todoist serverUrl projectId tks ts0).adds :=
        (mem_sync_adds _ _ _ _ _).mpr ⟨tk, htk, hnb, hl, rfl⟩
      rcases exists_zip_partner _ newIds hlen _ ha with ⟨i, hzip⟩
      refine ⟨{ id := i
                content := (mkAddOp serverUrl projectId tk).content
                due_date := (mkAddOp serverUrl projectId tk).due_date
                priority := (mkAddOp serverUrl projectId tk).priority
                description := (mkAddOp serverUrl projectId tk).description }, ?_, ?_⟩
      · apply List.mem_append_right
        exact List.mem_map.mpr ⟨(mkAddOp serverUrl projectId tk, i), hzip, rfl⟩
      · exact taskKey_task_content tk (hcolon tk htk)

/-- Claim C5 as amended: reconciliation is idempotent for well-formed inputs
— pairwise-distinct colon-free ticket keys, pairwise-distinct task ids,
pairwise-distinct parsed task keys (no shadowed duplicates, which the
counterexample shows break idempotence), and one fresh id per add.  After
the first pass's operations are applied, a second pass on the same ticket
snapshot emits no add, no complete and no delete, and every update it emits
carries exactly the content, due date, priority and description the targeted
task already has. -/
theorem C5_second_pass_is_noop (serverUrl projectId : String) (tks : List Ticket)
    (ts0 : List TodoTask) (newIds : List String)
    (hkeys : (tks.map (fun tk => tk.key)).Nodup)
    (hcolon : ∀ tk ∈ tks, ':' ∉ tk.key.data)
    (hids : (ts0.map (fun t => t.id)).Nodup)
    (hpre : (ts0.map (fun t => taskKey t.content)).Nodup)
    (hlen : newIds.length = (sync_to_todoist serverUrl projectId tks ts0).adds.length) :
    (sync_to_todoist serverUrl projectId tks
        (applyOps (sync_to_todoist serverUrl projectId tks ts0) newIds ts0)).adds = [] ∧
    (sync_to_todoist serverUrl projectId tks
        (applyOps (sync_to_todoist serverUrl projectId tks ts0) newIds ts0)).completes
      = [] ∧
    (sync_to_todoist serverUrl projectId tks
        (applyOps (sync_to_todoist serverUrl projectId tks ts0) newIds ts0)).deletes
      = [] ∧
    (∀ u ∈ (sync_to_todoist serverUrl projectId tks
        (applyOps (sync_to_todoist serverUrl projectId tks ts0) newIds ts0)).updates,
      ∃ t ∈ applyOps (sync_to_todoist serverUrl projectId tks ts0) newIds ts0,
        t.id = u.task_id ∧ t.content = u.content ∧ t.due_date = u.due_date ∧
        t.priority = u.priority ∧ t.description = u.description) :=
  sync_on_mirrors serverUrl projectId tks
    (applyOps (sync_to_todoist serverUrl projectId tks ts0) newIds ts0) hkeys hcolon
    (applyOps_mirrors serverUrl projectId tks ts0 newIds hkeys hcolon hids hpre hlen)

/-- Witness for C5 as amended: one open ticket, empty initial task list, one
fresh id for the add — the second pass emits no add, complete or delete. -/
theorem C5_witness :
    (["n1"].length = (sync_to_todoist "https://jira.example.com" "7"
        [{ key := "OPS-1", summary := "Fix disk", due_date := none,
           priority := some "Critical", status := some "Open", issuetype := none }]
        []).adds.length) ∧
    (sync_to_todoist "https://jira.example.com" "7"
        [{ key := "OPS-1", summary := "Fix disk", due_date := none,
           priority := some "Critical", status := some "Open", issuetype := none }]
        (applyOps
          (sync_to_todoist "https://jira.example.com" "7"
            [{ key := "OPS-1", summary := "Fix disk", due_date := none,
               priority := some "Critical", status := some "Open", issuetype := none }]
            []) ["n1"] [])).adds = [] ∧
    (sync_to_todoist "https://jira.example.com" "7"
        [{ key := "OPS-1", summary := "Fix disk", due_date := none,
           priority := some "Critical", status := some "Open", issuetype := none }]
        (applyOps
          (sync_to_todoist "https://jira.example.com" "7"
            [{ key := "OPS-1", summary := "Fix disk", due_date := none,
               priority := some "Critical", status := some "Open", issuetype := none }]
            []) ["n1"] [])).completes = [] ∧
    (sync_to_todoist "https://jira.example.com" "7"
        [{ key := "OPS-1", summary := "Fix disk", due_date := none,
           priority := some "Critical", status := some "Open", issuetype := none }]
        (applyOps
          (sync_to_todoist "https://jira.example.com" "7"
            [{ key := "OPS-1", summary := "Fix disk", due_date := none,
               priority := some "Critical", status := some "Open", issuetype := none }]
            []) ["n1"] [])).deletes = [] :=
  ⟨by decide,
   (C5_second_pass_is_noop "https://jira.example.com" "7"
      [{ key := "OPS-1", summary := "Fix disk", due_date := none,
         priority := some "Critical", status := some "Open", issuetype := none }]
      [] ["n1"] (by decide) (by decide) (by decide) (by decide) (by decide)).1,
   (C5_second_pass_is_noop "https://jira.example.com" "7"
      [{ key := "OPS-1", summary := "Fix disk", due_date := none,
         priority := some "Critical", status := some "Open", issuetype := none }]
      [] ["n1"] (by decide) (by decide) (by decide) (by decide) (by decide)).2.1,
   (C5_second_pass_is_noop "https://jira.example.com" "7"
      [{ key := "OPS-1", summary := "Fix disk", due_date := none,
         priority := some "Critical", status := some "Open", issuetype := none }]
      [] ["n1"] (by decide) (by decide) (by decide) (by decide) (by decide)).2.2.1⟩
